import Mathlib

/-!
Verification of the per-frame game-state tick of Neon Runner 3D
(`src/App.jsx`).  The simulation state and the tick are embedded shallowly
over exact rational arithmetic; the external inputs the tick samples
(keys, pointer lock, mouse-look directions, `performance.now()`, the
`Math.random()` draws and — because square roots are not rational — the
results of `THREE.Vector3.normalize`) are collected in an `Env` record
that is passed to the tick, mirroring how the JavaScript closure reads
them.  All distance comparisons `dist < r` in the source are translated
to the equivalent squared form, guarded by `0 < r`.
-/

namespace NeonRunner

/-- Vector with three exact rational coordinates, standing for `THREE.Vector3`. -/
structure Vec3 where
  x : ℚ
  y : ℚ
  z : ℚ
deriving Repr, DecidableEq

def Vec3.add (a b : Vec3) : Vec3 := ⟨a.x + b.x, a.y + b.y, a.z + b.z⟩

def Vec3.sub (a b : Vec3) : Vec3 := ⟨a.x - b.x, a.y - b.y, a.z - b.z⟩

def Vec3.smul (a : Vec3) (q : ℚ) : Vec3 := ⟨a.x * q, a.y * q, a.z * q⟩

/-- Squared Euclidean norm (`v.lengthSq()` in three.js). -/
def Vec3.norm2 (a : Vec3) : ℚ := a.x * a.x + a.y * a.y + a.z * a.z

/-- Squared distance between two points. -/
def dist2 (a b : Vec3) : ℚ := (a.sub b).norm2

/-- Translation of `a.distanceTo(b) < r`: both sides are nonnegative, so the
comparison is equivalent to the squared comparison as long as `0 < r`
(and for `r ≤ 0` the source comparison is false). -/
def distLt (a b : Vec3) (r : ℚ) : Bool := decide (0 < r) && decide (dist2 a b < r * r)

/-- Clamp helper from App.jsx: `Math.max(min, Math.min(max, v))`. -/
def clamp (v lo hi : ℚ) : ℚ := max lo (min hi v)

/-- Rounding as JavaScript `Math.round` on a rational: half rounds up. -/
def jsRound (q : ℚ) : ℤ := ⌊q + 1 / 2⌋

/-- Pickup type: `"xp" | "heart" | "shield"`. -/
inductive PType where
  | xp
  | heart
  | shield
deriving Repr, DecidableEq

/-- Player record (`state.player` in App.jsx). -/
structure Player where
  pos : Vec3
  velY : ℚ
  speed : ℚ
  dashCooldown : ℚ
  maxHp : ℚ
  hp : ℚ
  magnet : ℚ
  damage : ℚ
  firerate : ℚ
  bulletSpeed : ℚ
  pierce : ℤ
deriving Repr, DecidableEq

/-- Enemy record.  Non-boss enemies are created without the boss-only
fields (`velY`, `jumpCooldown`, `leapTime`, `leapDir`, `shootCooldown`);
they are carried here with default value 0 and are only read inside the
`isBoss` branch of the AI step, exactly as in the source. -/
structure Enemy where
  id : ℕ
  pos : Vec3
  hp : ℚ
  maxHp : ℚ
  radius : ℚ
  speed : ℚ
  isBoss : Bool
  velY : ℚ
  jumpCooldown : ℚ
  leapTime : ℚ
  leapDir : Vec3
  shootCooldown : ℚ
deriving Repr, DecidableEq

/-- Player-owned bullet. -/
structure Bullet where
  id : ℕ
  pos : Vec3
  vel : Vec3
  life : ℚ
  pierceLeft : ℤ
  damage : ℚ
deriving Repr, DecidableEq

/-- Boss-fired bullet (`eBullets`). -/
structure EBullet where
  id : ℕ
  pos : Vec3
  vel : Vec3
  life : ℚ
  damage : ℚ
deriving Repr, DecidableEq

/-- Dropped pickup. -/
structure Pickup where
  id : ℕ
  pos : Vec3
  ttl : ℚ
  type : PType
deriving Repr, DecidableEq

/-- Session state published after each tick (`useGameState`). -/
structure State where
  playing : Bool
  paused : Bool
  gameOver : Bool
  wave : ℕ
  time : ℚ
  score : ℤ
  level : ℕ
  xp : ℤ
  player : Player
  enemies : List Enemy
  bullets : List Bullet
  eBullets : List EBullet
  pickups : List Pickup
  nextId : ℕ
  lastShot : ℚ
  difficulty : ℕ
  bossActive : Bool
  bossDefeatedAtWave : ℕ
  hitFlash : ℚ
deriving Repr, DecidableEq

/-- External inputs sampled by one tick.  `worldDir` is the yaw-rotated,
normalized WASD direction (the zero vector when no movement key is held),
`shootFwd` the camera forward vector; `unit` stands for
`THREE.Vector3.normalize` (which maps the zero vector to itself); the
remaining rational fields are the `Math.random()` draws consumed by this
tick, indexed by the enemy-list position where the source draws them. -/
structure Env where
  worldDir : Vec3
  shiftHeld : Bool
  spaceHeld : Bool
  mouseLeft : Bool
  isLocked : Bool
  shootFwd : Vec3
  now : ℚ
  unit : Vec3 → Vec3
  spawnRoll : ℚ
  spawnCos : ℚ
  spawnSin : ℚ
  bossX : ℚ
  bossZ : ℚ
  bossJumpCd0 : ℚ
  bossShootCd0 : ℚ
  bossJumpCdR : ℕ → ℚ
  lootRoll : ℕ → ℚ

/-- Result of running one bullet over the enemy list (one iteration of the
outer collision loop, App.jsx lines 434-443). -/
structure PassRes where
  enemies : List Enemy
  score : ℤ
  xp : ℤ
  bullet : Bullet
deriving Repr, DecidableEq

/-- One bullet traverses the enemy list in order: dead enemies are skipped,
each living enemy within `radius + 0.2` takes `damage`; on a hit with no
pierce remaining the bullet's life is set to -1 (it is not removed until
after the loop), otherwise its pierce count decrements; an enemy whose hp
drops to 0 or below yields its score/xp award at that moment. -/
def bulletPass : Bullet → List Enemy → ℤ → ℤ → PassRes
  | b, [], sc, xp => ⟨[], sc, xp, b⟩
  | b, e :: rest, sc, xp =>
    if e.hp ≤ 0 then
      let r := bulletPass b rest sc xp
      ⟨e :: r.enemies, r.score, r.xp, r.bullet⟩
    else if distLt b.pos e.pos (e.radius + 1 / 5) then
      let e1 : Enemy := { e with hp := e.hp - b.damage }
      let b1 : Bullet :=
        if b.pierceLeft ≤ 0 then { b with life := -1 }
        else { b with pierceLeft := b.pierceLeft - 1 }
      let sc1 : ℤ := sc + (if e1.hp ≤ 0 then (if e1.isBoss then 200 else 15) else 0)
      let xp1 : ℤ := xp + (if e1.hp ≤ 0 then (if e1.isBoss then 5 else 1) else 0)
      let r := bulletPass b1 rest sc1 xp1
      ⟨e1 :: r.enemies, r.score, r.xp, r.bullet⟩
    else
      let r := bulletPass b rest sc xp
      ⟨e :: r.enemies, r.score, r.xp, r.bullet⟩

/-- Result of the whole player-bullet collision phase. -/
structure CollideRes where
  bullets : List Bullet
  enemies : List Enemy
  score : ℤ
  xp : ℤ
deriving Repr, DecidableEq

/-- The double collision loop (App.jsx lines 433-443): each bullet in order
runs over the (already mutated) enemy list. -/
def collide : List Bullet → List Enemy → ℤ → ℤ → CollideRes
  | [], es, sc, xp => ⟨[], es, sc, xp⟩
  | b :: bs, es, sc, xp =>
    let r := bulletPass b es sc xp
    let r2 := collide bs r.enemies r.score r.xp
    ⟨r.bullet :: r2.bullets, r2.enemies, r2.score, r2.xp⟩

/-- Bullet advance and cull (App.jsx line 380): integrate velocity, age by
`dt`, keep bullets with positive life inside range 60. -/
def stepBullets (bs : List Bullet) (dt : ℚ) : List Bullet :=
  (bs.map fun b => { b with pos := b.pos.add (b.vel.smul dt), life := b.life - dt }).filter
    fun b => decide (0 < b.life) && decide (b.pos.norm2 < 3600)

/-- Enemy-bullet advance and cull (App.jsx line 447), range 70. -/
def stepEBullets (bs : List EBullet) (dt : ℚ) : List EBullet :=
  (bs.map fun b => { b with pos := b.pos.add (b.vel.smul dt), life := b.life - dt }).filter
    fun b => decide (0 < b.life) && decide (b.pos.norm2 < 4900)

/-- Result of one enemy's AI step. -/
structure AiOneRes where
  enemy : Enemy
  shots : List EBullet
  nid : ℕ
deriving Repr, DecidableEq

/-- AI step for the enemy at list position `i` (App.jsx lines 397-429):
seek the player on the horizontal plane; a boss additionally decrements
its jump cooldown, starts a leap when cooled down and within range 24,
advances a running leap, integrates gravity, and fires a projectile at the
player when its shot cooldown has elapsed. -/
def aiOne (plPos : Vec3) (w d : ℕ) (dt : ℚ) (env : Env) (i : ℕ) (e : Enemy) (nid : ℕ) :
    AiOneRes :=
  let toP0 := plPos.sub e.pos
  let toP1 : Vec3 := ⟨toP0.x, 0, toP0.z⟩
  let toP := if 0 < toP1.norm2 then env.unit toP1 else toP1
  let e1 : Enemy := { e with pos := e.pos.add (toP.smul (e.speed * dt)) }
  if e1.isBoss then
    let jc0 := e1.jumpCooldown - dt
    let trig : Bool := decide (jc0 ≤ 0) && distLt e1.pos plPos 24
    let vy0 : ℚ := if trig then 39 / 5 + (1 / 5) * (w : ℚ) else e1.velY
    let ld : Vec3 := if trig then toP else e1.leapDir
    let lt0 : ℚ := if trig then 11 / 20 + min (2 / 5) ((1 / 50) * (w : ℚ)) else e1.leapTime
    let jc1 : ℚ := if trig then env.bossJumpCdR i else jc0
    let leapSpeed : ℚ := 13 / 2 + (11 / 50) * (w : ℚ) + (7 / 10) * (d : ℚ)
    let pos1 : Vec3 := if 0 < lt0 then e1.pos.add (ld.smul (leapSpeed * dt)) else e1.pos
    let lt1 : ℚ := if 0 < lt0 then lt0 - dt else lt0
    let vy1 : ℚ := vy0 - 22 * dt
    let py : ℚ := pos1.y + vy1 * dt
    let pos2 : Vec3 := if py < 1 then ⟨pos1.x, 1, pos1.z⟩ else ⟨pos1.x, py, pos1.z⟩
    let vy2 : ℚ := if py < 1 then 0 else vy1
    let sc0 := e1.shootCooldown - dt
    if sc0 ≤ 0 then
      let dir := env.unit (plPos.sub pos2)
      let shotSpeed : ℚ := 7 + (13 / 20) * (w : ℚ) + (3 / 4) * (d : ℚ)
      let eb : EBullet :=
        { id := nid, pos := pos2.add (dir.smul (e1.radius + 2 / 5)), vel := dir.smul shotSpeed,
          life := 7 / 2, damage := 18 + 4 * (d : ℚ) }
      let scNew : ℚ := max (2 / 5) ((17 / 10) / (1 + (2 / 25) * (w : ℚ) + (1 / 4) * (d : ℚ)))
      let eOut : Enemy := { e1 with pos := pos2, velY := vy2, jumpCooldown := jc1, leapTime := lt1, leapDir := ld, shootCooldown := scNew }
      ⟨eOut, [eb], nid + 1⟩
    else
      let eOut : Enemy := { e1 with pos := pos2, velY := vy2, jumpCooldown := jc1, leapTime := lt1, leapDir := ld, shootCooldown := sc0 }
      ⟨eOut, [], nid⟩
  else ⟨e1, [], nid⟩

/-- Result of the whole enemy AI phase. -/
structure AiRes where
  enemies : List Enemy
  eBullets : List EBullet
  nid : ℕ
deriving Repr, DecidableEq

/-- Run `aiOne` over the enemy list in order, appending fired boss
projectiles to the enemy-bullet list as the source's `push` does. -/
def aiGo (plPos : Vec3) (w d : ℕ) (dt : ℚ) (env : Env) :
    ℕ → List Enemy → List EBullet → ℕ → AiRes
  | _, [], ebs, nid => ⟨[], ebs, nid⟩
  | i, e :: rest, ebs, nid =>
    let r1 := aiOne plPos w d dt env i e nid
    let r2 := aiGo plPos w d dt env (i + 1) rest (ebs ++ r1.shots) r1.nid
    ⟨r1.enemy :: r2.enemies, r2.eBullets, r2.nid⟩

def aiPhase (plPos : Vec3) (w d : ℕ) (dt : ℚ) (env : Env) (es : List Enemy)
    (ebs : List EBullet) (nid : ℕ) : AiRes :=
  aiGo plPos w d dt env 0 es ebs nid

/-- Enemy-bullet vs player contact (App.jsx lines 448-450): every
enemy bullet within 0.7 of the player adds its damage to the tick's hp
loss and is removed; the others survive.  The input list comes from
`stepEBullets`, so every bullet in it has positive life and the source's
`life = -1` marking followed by filtering removes exactly the hits. -/
def eBulletHits (plPos : Vec3) : List EBullet → ℚ × List EBullet
  | [] => (0, [])
  | b :: rest =>
    let r := eBulletHits plPos rest
    if distLt b.pos plPos (7 / 10) then (b.damage + r.1, r.2)
    else (r.1, b :: r.2)

/-- Loot table (App.jsx lines 457-459): the drop roll doubles as the type
roll. -/
def lootType (isBoss : Bool) (roll : ℚ) : PType :=
  if isBoss then
    if roll < 2 / 5 then PType.heart else if roll < 7 / 10 then PType.shield else PType.xp
  else
    if roll < 1 / 10 then PType.heart else if roll < 9 / 50 then PType.shield else PType.xp

/-- Drops produced by the death sweep.  The source iterates indices
downward, so this runs over the reversed indexed enemy list: each dead
enemy rolls once; a successful roll pushes a pickup with the next fresh
id.  Also reports whether some boss died. -/
def dropsRev (env : Env) : List (ℕ × Enemy) → ℕ → List Pickup × ℕ × Bool
  | [], nid => ([], nid, false)
  | (i, e) :: rest, nid =>
    if e.hp ≤ 0 then
      let roll := env.lootRoll i
      if roll < (if e.isBoss then 1 else 3 / 5) then
        let pk : Pickup :=
          { id := nid, pos := e.pos, ttl := if e.isBoss then 18 else 10,
            type := lootType e.isBoss roll }
        let r := dropsRev env rest (nid + 1)
        (pk :: r.1, r.2.1, e.isBoss || r.2.2)
      else
        let r := dropsRev env rest nid
        (r.1, r.2.1, e.isBoss || r.2.2)
    else dropsRev env rest nid

/-- Result of the death sweep. -/
structure DeathRes where
  enemies : List Enemy
  drops : List Pickup
  nid : ℕ
  bossDied : Bool
deriving Repr, DecidableEq

/-- Death sweep (App.jsx lines 453-465): every enemy with hp ≤ 0 rolls
loot and is removed; survivors keep their order. -/
def enemyDeaths (env : Env) (es : List Enemy) (nid : ℕ) : DeathRes :=
  let r := dropsRev env es.enum.reverse nid
  ⟨es.filter (fun e => decide (0 < e.hp)), r.1, r.2.1, r.2.2⟩

/-- Contact damage (App.jsx lines 468-471): each surviving enemy within
`radius + 0.8` of the player deals `(boss ? 25 : 10) * difficulty * dt`. -/
def contactDamage (es : List Enemy) (plPos : Vec3) (d : ℕ) (dt : ℚ) : ℚ :=
  es.foldr
    (fun e acc =>
      (if distLt e.pos plPos (e.radius + 4 / 5) then (if e.isBoss then 25 else 10) * (d : ℚ) * dt
       else 0) + acc)
    0

/-- Result of the pickup sweep. -/
structure PickRes where
  pickups : List Pickup
  xp : ℤ
  hp : ℚ
deriving Repr, DecidableEq

/-- One pickup's processing (App.jsx lines 477-493): expire by ttl,
attract towards the player inside the magnet radius, then on contact
(< 1.0 after attraction) grant its effect and disappear.  The hp changes
made here mutate `s.player.hp`; the tick's final player record overwrites
that field with the previously computed `newHp`, so they are threaded here
only to mirror the source. -/
def pickupOne (env : Env) (plPos : Vec3) (magnet maxHp dt : ℚ) (p : Pickup)
    (acc : PickRes) : PickRes :=
  let ttl := p.ttl - dt
  if ttl ≤ 0 then acc
  else
    let p1 : Pickup := { p with ttl := ttl }
    let p2 : Pickup :=
      if distLt p1.pos plPos ((5 / 2) * magnet) then
        let d0 := plPos.sub p1.pos
        let dirP := env.unit ⟨d0.x, 0, d0.z⟩
        { p1 with pos := p1.pos.add (dirP.smul ((10 + 6 * magnet) * dt)) }
      else p1
    if distLt p2.pos plPos 1 then
      match p2.type with
      | PType.xp => ⟨acc.pickups, acc.xp + 1, acc.hp⟩
      | PType.heart => ⟨acc.pickups, acc.xp, clamp (acc.hp + 15) 0 maxHp⟩
      | PType.shield => ⟨acc.pickups, acc.xp, clamp (acc.hp + 8) 0 maxHp⟩
    else ⟨p2 :: acc.pickups, acc.xp, acc.hp⟩

/-- The pickup sweep iterates indices downward; `foldr` applies the last
pickup first, matching that order, and survivors keep their order. -/
def pickupPhase (env : Env) (plPos : Vec3) (magnet maxHp dt : ℚ) (ps : List Pickup)
    (hp0 : ℚ) : PickRes :=
  ps.foldr (pickupOne env plPos magnet maxHp dt) ⟨[], 0, hp0⟩

/-- Experience/leveling (App.jsx lines 496-499): one threshold check per
tick; excess experience beyond the consumed threshold is retained. -/
def levelStep (xp xpAdd : ℤ) (level : ℕ) : ℤ × ℕ :=
  let newXp := xp + xpAdd
  let need : ℤ := 10 + ((level : ℤ) - 1) * 6
  if need ≤ newXp then (newXp - need, level + 1) else (newXp, level)

/-- Guard of the boss spawn (App.jsx line 352): boss wave, no boss flagged
active, this wave's boss not already defeated, and no boss alive in the
enemy list. -/
def bossSpawnGuard (prev : State) : Bool :=
  (prev.wave % 5 == 0) && !prev.bossActive && (prev.bossDefeatedAtWave != prev.wave) &&
    !(prev.enemies.any (·.isBoss))

/-- The boss spawned on a boss wave (App.jsx lines 354-360), scaled by wave
tier and difficulty. -/
def bossOf (prev : State) (env : Env) : Enemy :=
  let tier : ℕ := max 1 (prev.wave / 5)
  let baseHp : ℚ := 260 + 150 * (tier : ℚ)
  let hp : ℚ := (jsRound (baseHp * (1 + (1 / 4) * (prev.difficulty : ℚ))) : ℚ)
  { id := prev.nextId, pos := ⟨env.bossX, 1, env.bossZ⟩, hp := hp, maxHp := hp,
    radius := 11 / 5 + (1 / 20) * (prev.wave : ℚ),
    speed := 13 / 5 + (3 / 25) * (prev.wave : ℚ) + (1 / 4) * (prev.difficulty : ℚ),
    isBoss := true, velY := 0, jumpCooldown := env.bossJumpCd0, leapTime := 0,
    leapDir := ⟨0, 0, 0⟩, shootCooldown := env.bossShootCd0 }

/-- A normal enemy spawned at angle `ang` on the radius-33 ring
(App.jsx lines 387-392). -/
def spawnEnemy (prev : State) (env : Env) (nid : ℕ) : Enemy :=
  let hp : ℚ :=
    (jsRound (18 + ((prev.wave : ℚ) - 1) * 6 * (7 / 10 + (3 / 10) * (prev.difficulty : ℚ))) : ℚ)
  { id := nid, pos := ⟨env.spawnCos * 33, 1, env.spawnSin * 33⟩, hp := hp, maxHp := hp,
    radius := 9 / 10,
    speed := 3 + ((prev.wave : ℚ) - 1) * (1 / 5) + (prev.difficulty : ℚ) * (3 / 10),
    isBoss := false, velY := 0, jumpCooldown := 0, leapTime := 0, leapDir := ⟨0, 0, 0⟩,
    shootCooldown := 0 }

/-- State of the simulation after the phases that precede the player-bullet
collision step: player kinematics, boss spawn, shooting, bullet advance,
normal spawning and the enemy AI step. -/
structure Mid where
  pl : Player
  enemies : List Enemy
  bullets : List Bullet
  eBullets : List EBullet
  nid : ℕ
  lastShot : ℚ
  bossActive : Bool

/-- Player kinematics (App.jsx lines 294, 304-336): dash-cooldown decay,
movement in the yaw-rotated input direction with the 1.8x dash multiplier,
arena-disc clamp (`setLength (35 - 1)`), then jump, gravity and the ground
clamp on the vertical axis. -/
def movedPlayer (prev : State) (dt : ℚ) (env : Env) : Player :=
  let dc0 : ℚ := max 0 (prev.player.dashCooldown - dt)
  let willDash : Bool := env.shiftHeld && decide (dc0 = 0)
  let speed : ℚ := prev.player.speed * (if willDash then 9 / 5 else 1)
  let dc1 : ℚ := if willDash then 1 else dc0
  let np0 : Vec3 := prev.player.pos.add (env.worldDir.smul (speed * dt))
  let np : Vec3 := if 34 * 34 < np0.norm2 then (env.unit np0).smul 34 else np0
  let pos1 : Vec3 := ⟨np.x, prev.player.pos.y, np.z⟩
  let onGround : Bool := decide (pos1.y ≤ 1 + 1 / 1000) && decide (prev.player.velY = 0)
  let vy0 : ℚ := if env.spaceHeld && onGround then 7 else prev.player.velY
  let vy1 : ℚ := vy0 - 18 * dt
  let py : ℚ := pos1.y + vy1 * dt
  let pos2 : Vec3 := if py < 1 then ⟨pos1.x, 1, pos1.z⟩ else ⟨pos1.x, py, pos1.z⟩
  let vy2 : ℚ := if py < 1 then 0 else vy1
  { prev.player with pos := pos2, velY := vy2, dashCooldown := dc1 }

/-- Enemy list after the boss-spawn check: on trigger the whole list is
replaced by the single new boss. -/
def bossPhaseEnemies (prev : State) (env : Env) : List Enemy :=
  if bossSpawnGuard prev then [bossOf prev env] else prev.enemies

/-- Id counter after the boss-spawn check. -/
def bossPhaseNid (prev : State) : ℕ :=
  if bossSpawnGuard prev then prev.nextId + 1 else prev.nextId

/-- Boss-active flag after the boss-spawn check. -/
def bossPhaseActive (prev : State) : Bool :=
  if bossSpawnGuard prev then true else prev.bossActive

/-- Result of the player-shooting phase. -/
structure ShootRes where
  bullets : List Bullet
  nid : ℕ
  lastShot : ℚ
deriving Repr, DecidableEq

/-- Player shooting (App.jsx lines 365-377): with the pointer locked and
the mouse held, once `1/firerate` seconds have passed since the last shot,
a bullet is emitted along the camera forward vector. -/
def phShoot (prev : State) (pl : Player) (nid1 : ℕ) (env : Env) : ShootRes :=
  let doShoot : Bool :=
    env.isLocked && env.mouseLeft && decide (1 / pl.firerate ≤ env.now - prev.lastShot)
  let newBullet : Bullet :=
    { id := nid1, pos := (pl.pos.add (env.shootFwd.smul 1)).add ⟨0, 1 / 10, 0⟩,
      vel := env.shootFwd.smul pl.bulletSpeed, life := 9 / 5, pierceLeft := pl.pierce,
      damage := pl.damage }
  { bullets := if doShoot then prev.bullets ++ [newBullet] else prev.bullets,
    nid := if doShoot then nid1 + 1 else nid1,
    lastShot := if doShoot then env.now else prev.lastShot }

/-- Result of the non-boss spawner. -/
structure SpawnRes where
  enemies : List Enemy
  nid : ℕ
deriving Repr, DecidableEq

/-- Non-boss spawner (App.jsx lines 383-394): skipped while a boss wave is
active; otherwise one enemy appears on the radius-33 ring with probability
`dt / (1.2 / (1 + (wave-1)*0.15))`, capped at 45 concurrent non-bosses. -/
def phSpawn (prev : State) (env : Env) (dt : ℚ) (enemies1 : List Enemy)
    (bossActive1 : Bool) (nid2 : ℕ) : SpawnRes :=
  let bossWave : Bool := prev.wave % 5 == 0
  let spawnChance : ℚ := dt / ((6 / 5) / (1 + ((prev.wave : ℚ) - 1) * (3 / 20)))
  let doSpawn : Bool :=
    (!bossWave || !bossActive1) && decide (env.spawnRoll < spawnChance) &&
      decide ((enemies1.filter fun e => !e.isBoss).length < 45)
  { enemies := if doSpawn then enemies1 ++ [spawnEnemy prev env nid2] else enemies1,
    nid := if doSpawn then nid2 + 1 else nid2 }

/-- Phases 1-11 of the tick (App.jsx lines 292-430), in source order:
player kinematics, boss spawn, player shooting, bullet advance/cull,
non-boss spawning, and the per-enemy AI step. -/
def midOf (prev : State) (dt : ℚ) (env : Env) : Mid :=
  let pl : Player := movedPlayer prev dt env
  let sh : ShootRes := phShoot prev pl (bossPhaseNid prev) env
  let sp : SpawnRes := phSpawn prev env dt (bossPhaseEnemies prev env) (bossPhaseActive prev) sh.nid
  let ai : AiRes := aiPhase pl.pos prev.wave prev.difficulty dt env sp.enemies prev.eBullets sp.nid
  { pl := pl, enemies := ai.enemies, bullets := stepBullets sh.bullets dt,
    eBullets := ai.eBullets, nid := ai.nid, lastShot := sh.lastShot,
    bossActive := bossPhaseActive prev }

/-- Phases 12-19 of an active tick (App.jsx lines 432-515) on top of
`midOf`: player-bullet collisions, bullet removal, enemy-bullet
advance/hit, death sweep with loot, contact damage, hp clamp and game-over
test, pickup sweep, leveling and wave advancement, assembled into the
published state in the exact field order of the source's return. -/
def tickActive (prev : State) (dt : ℚ) (env : Env) : State :=
  let m := midOf prev dt env
  let c := collide m.bullets m.enemies 0 0
  let bullets3 : List Bullet := c.bullets.filter fun b => decide (0 < b.life)
  let ebs1 : List EBullet := stepEBullets m.eBullets dt
  let hits := eBulletHits m.pl.pos ebs1
  let deaths := enemyDeaths env c.enemies m.nid
  let bossActive2 : Bool := if deaths.bossDied then false else m.bossActive
  let bdaw1 : ℕ := if deaths.bossDied then prev.wave else prev.bossDefeatedAtWave
  let hpLoss : ℚ := hits.1 + contactDamage deaths.enemies m.pl.pos prev.difficulty dt
  let hitFlash1 : ℚ := if 0 < hpLoss then 1 else max 0 (prev.hitFlash - 2 * dt)
  let newHp : ℚ := clamp (prev.player.hp - hpLoss) 0 prev.player.maxHp
  let pk :=
    pickupPhase env m.pl.pos prev.player.magnet prev.player.maxHp dt
      (prev.pickups ++ deaths.drops) prev.player.hp
  let lvl := levelStep prev.xp (c.xp + pk.xp) prev.level
  let time1 : ℚ := prev.time + dt
  { playing := prev.playing, paused := prev.paused, gameOver := decide (newHp ≤ 0),
    wave := if 25 + (prev.wave : ℚ) * 18 < time1 then prev.wave + 1 else prev.wave,
    time := time1, score := prev.score + c.score, level := lvl.2, xp := lvl.1,
    player := { m.pl with hp := newHp },
    enemies := deaths.enemies, bullets := bullets3, eBullets := hits.2,
    pickups := pk.pickups, nextId := deaths.nid, lastShot := m.lastShot,
    difficulty := prev.difficulty, bossActive := bossActive2,
    bossDefeatedAtWave := bdaw1, hitFlash := hitFlash1 }

/-- One frame of `GameLoop` (App.jsx lines 288-517): the frame delta is
clamped to 50 ms; when the session is not playing, paused, or over, the
previous state is returned unchanged. -/
def tick (prev : State) (dtx : ℚ) (env : Env) : State :=
  let dt : ℚ := min (1 / 20) dtx
  if prev.playing && !prev.paused && !prev.gameOver then tickActive prev dt env else prev

/-- The fresh session built by `start()` (App.jsx lines 570-575). -/
def startState (difficulty : ℕ) : State :=
  { playing := true, paused := false, gameOver := false, wave := 1, time := 0, score := 0,
    level := 1, xp := 0,
    player :=
      { pos := ⟨0, 1, 0⟩, velY := 0, speed := 10, dashCooldown := 0, maxHp := 100, hp := 100,
        magnet := 1, damage := 10, firerate := 7, bulletSpeed := 35, pierce := 0 },
    enemies := [], bullets := [], eBullets := [], pickups := [], nextId := 1, lastShot := 0,
    difficulty := difficulty, bossActive := false, bossDefeatedAtWave := 0, hitFlash := 0 }

/-- Death sweep of the second (STABLE) build (App.jsx lines 1095-1101):
identical iteration order, but a dropped pickup's id is `s.nextId + i`
for enemy index `i` and the id counter is NOT advanced. -/
def dropsRevStable (lootRoll : ℕ → ℚ) (nid : ℕ) : List (ℕ × Enemy) → List Pickup
  | [] => []
  | (i, e) :: rest =>
    if e.hp ≤ 0 then
      let roll := lootRoll i
      if roll < 3 / 5 then
        { id := nid + i, pos := e.pos, ttl := 10,
          type :=
            if roll < 1 / 10 then PType.heart
            else if roll < 9 / 50 then PType.shield
            else PType.xp } :: dropsRevStable lootRoll nid rest
      else dropsRevStable lootRoll nid rest
    else dropsRevStable lootRoll nid rest

/-- Result of the STABLE build's death sweep. -/
structure StableDeathRes where
  enemies : List Enemy
  pickups : List Pickup
  nid : ℕ
deriving Repr, DecidableEq

/-- The STABLE build's enemy-death sweep (App.jsx lines 1095-1101): dead
enemies are removed and may push a pickup, appended to the existing pickup
list; `nextId` is returned unchanged because that build never increments
it here. -/
def enemyDeathsStable (lootRoll : ℕ → ℚ) (es : List Enemy) (pickups : List Pickup)
    (nid : ℕ) : StableDeathRes :=
  ⟨es.filter (fun e => decide (0 < e.hp)),
    pickups ++ dropsRevStable lootRoll nid es.enum.reverse, nid⟩

/-- A neutral input sample: no keys held, pointer not locked, spawn roll
high enough that no enemy spawns on a 50 ms tick at low waves. -/
def env0 : Env :=
  { worldDir := ⟨0, 0, 0⟩, shiftHeld := false, spaceHeld := false, mouseLeft := false,
    isLocked := false, shootFwd := ⟨0, 0, -1⟩, now := 0, unit := fun _ => ⟨0, 0, 0⟩,
    spawnRoll := 1, spawnCos := 1, spawnSin := 0, bossX := 0, bossZ := 0,
    bossJumpCd0 := 1, bossShootCd0 := 1, bossJumpCdR := fun _ => 2, lootRoll := fun _ => 1 / 2 }

/-- The effect of one bullet positioned at `bpos` with damage `bdmg` on one
enemy during a collision pass: a living enemy within `radius + 0.2` takes
the damage, all others are untouched. -/
def damageIf (bpos : Vec3) (bdmg : ℚ) (e : Enemy) : Enemy :=
  if e.hp ≤ 0 then e
  else if distLt bpos e.pos (e.radius + 1 / 5) then { e with hp := e.hp - bdmg } else e

/-- Number of living enemies within contact range of a bullet at `bpos`:
the number of hits that bullet scores in one collision pass. -/
def liveHits (bpos : Vec3) (es : List Enemy) : ℕ :=
  (es.filter fun e => !decide (e.hp ≤ 0) && distLt bpos e.pos (e.radius + 1 / 5)).length

/-- Score awarded for killing an enemy (App.jsx line 440). -/
def scoreAward (e : Enemy) : ℤ := if e.isBoss then 200 else 15

/-- Experience awarded for killing an enemy (App.jsx line 440). -/
def xpAward (e : Enemy) : ℤ := if e.isBoss then 5 else 1

/-- Total score award carried by the dead enemies of a list. -/
def deadScore (es : List Enemy) : ℤ :=
  es.foldr (fun e a => (if e.hp ≤ 0 then scoreAward e else 0) + a) 0

/-- Total experience award carried by the dead enemies of a list. -/
def deadXp (es : List Enemy) : ℤ :=
  es.foldr (fun e a => (if e.hp ≤ 0 then xpAward e else 0) + a) 0

/-- Number of bosses in an enemy list. -/
def countBoss (es : List Enemy) : ℕ := (es.map Enemy.isBoss).count true

/-- A normal enemy standing exactly on the player's spot, as spawned at
wave 1 but with full hp 100 so bullet hits leave it alive. -/
def c1Enemy (i : ℕ) : Enemy :=
  { id := i, pos := ⟨0, 1, 0⟩, hp := 100, maxHp := 100, radius := 9 / 10, speed := 3,
    isBoss := false, velY := 0, jumpCooldown := 0, leapTime := 0, leapDir := ⟨0, 0, 0⟩,
    shootCooldown := 0 }

/-- A pierce-0 bullet resting at the player's spot (zero velocity keeps its
position fixed through the advance step). -/
def c1Bullet : Bullet :=
  { id := 10, pos := ⟨0, 1, 0⟩, vel := ⟨0, 0, 0⟩, life := 9 / 5, pierceLeft := 0, damage := 10 }

/-- Running session with two overlapping enemies and one pierce-0 bullet in
contact range of both. -/
def c1State : State :=
  { startState 2 with enemies := [c1Enemy 1, c1Enemy 2], bullets := [c1Bullet], nextId := 11 }

/-- An already-dead enemy at list index 0, input to the STABLE build's
death sweep. -/
def c2DeadEnemy (i : ℕ) : Enemy :=
  { id := i, pos := ⟨0, 1, 0⟩, hp := 0, maxHp := 18, radius := 9 / 10, speed := 3,
    isBoss := false, velY := 0, jumpCooldown := 0, leapTime := 0, leapDir := ⟨0, 0, 0⟩,
    shootCooldown := 0 }

/-- Loot roll 0.5: below the 0.6 drop chance, lands in the xp band. -/
def c2Roll : ℕ → ℚ := fun _ => 1 / 2

/-- Active state whose wave time bank is at the wave-1 threshold of 43 s. -/
def c4A : State := { startState 2 with time := 43 }

/-- Active state past 25 s but below the 43 s wave-1 threshold. -/
def c4B : State := { startState 2 with time := 30 }

/-- Running state at half health for the hp-bounds witness. -/
def c5State : State :=
  { startState 2 with player := { (startState 2).player with hp := 50 } }

/-- A wave-1 enemy with 10 hp on the player's spot. -/
def c6Enemy : Enemy :=
  { id := 1, pos := ⟨0, 1, 0⟩, hp := 10, maxHp := 10, radius := 9 / 10, speed := 3,
    isBoss := false, velY := 0, jumpCooldown := 0, leapTime := 0, leapDir := ⟨0, 0, 0⟩,
    shootCooldown := 0 }

/-- A bullet that kills `c6Enemy` in one hit. -/
def c6Bullet : Bullet :=
  { id := 2, pos := ⟨0, 1, 0⟩, vel := ⟨0, 0, 0⟩, life := 9 / 5, pierceLeft := 0, damage := 10 }

/-- Running session in which the tick kills one enemy. -/
def c6State : State :=
  { startState 2 with enemies := [c6Enemy], bullets := [c6Bullet], nextId := 3 }

/-- An xp pickup spawned 0.5 units from the arena-center player. -/
def c7Pickup : Pickup := { id := 1, pos := ⟨1 / 2, 1, 0⟩, ttl := 10, type := PType.xp }

/-- Player at xp 9 of 10, one xp pickup in reach. -/
def c7State : State := { startState 2 with xp := 9, pickups := [c7Pickup] }

/-- Inputs whose `normalize` oracle answers the one vector the pickup
attraction asks about: the unit vector of (-1/2, 0, 0). -/
def cAttractEnv : Env :=
  { env0 with unit := fun v => if v = ⟨-(1 / 2), 0, 0⟩ then ⟨-1, 0, 0⟩ else ⟨0, 0, 0⟩ }

/-- Paused running session for the frozen-tick witness. -/
def c8State : State := { startState 2 with paused := true, score := 7 }

/-- A heart pickup spawned 0.5 units from the arena-center player. -/
def c9Pickup : Pickup := { id := 1, pos := ⟨1 / 2, 1, 0⟩, ttl := 10, type := PType.heart }

/-- Player at 50/100 hp with a heart pickup in reach. -/
def c9State : State :=
  { startState 2 with player := { (startState 2).player with hp := 50 }, pickups := [c9Pickup] }

/-- An xp pickup directly on the player. -/
def c10Pickup : Pickup := { id := 1, pos := ⟨0, 1, 0⟩, ttl := 10, type := PType.xp }

/-- Player at xp 9 about to collect 20 xp in one tick: enough to cross the
level-1 threshold (10) and leave 19, which already meets the level-2
threshold (16). -/
def c10State : State :=
  { startState 2 with xp := 9, pickups := List.replicate 20 c10Pickup }

theorem clamp_nonneg (v hi : ℚ) : 0 ≤ clamp v 0 hi := le_max_left 0 _

theorem clamp_le (v hi : ℚ) (h : 0 ≤ hi) : clamp v 0 hi ≤ hi :=
  max_le h (min_le_left hi v)

theorem damageIf_isBoss (bpos : Vec3) (bdmg : ℚ) (e : Enemy) :
    (damageIf bpos bdmg e).isBoss = e.isBoss := by
  unfold damageIf
  split
  · rfl
  · split <;> rfl

theorem bulletPass_enemies (es : List Enemy) : ∀ (b : Bullet) (sc xp : ℤ),
    (bulletPass b es sc xp).enemies = es.map (damageIf b.pos b.damage) := by
  induction es with
  | nil => intro b sc xp; rfl
  | cons e rest ih =>
    intro b sc xp
    by_cases h1 : e.hp ≤ 0
    · simp only [bulletPass, if_pos h1, List.map_cons, damageIf, ih]
    · by_cases h2 : distLt b.pos e.pos (e.radius + 1 / 5) = true
      · by_cases h3 : b.pierceLeft ≤ 0
        · simp only [bulletPass, if_neg h1, if_pos h2, if_pos h3, List.map_cons, damageIf, ih]
        · simp only [bulletPass, if_neg h1, if_pos h2, if_neg h3, List.map_cons, damageIf, ih]
      · simp only [bulletPass, if_neg h1, if_neg h2, List.map_cons, damageIf, ih]

theorem deadScore_cons (e : Enemy) (l : List Enemy) :
    deadScore (e :: l) = (if e.hp ≤ 0 then scoreAward e else 0) + deadScore l := rfl

theorem deadXp_cons (e : Enemy) (l : List Enemy) :
    deadXp (e :: l) = (if e.hp ≤ 0 then xpAward e else 0) + deadXp l := rfl

theorem bulletPass_score (es : List Enemy) : ∀ (b : Bullet) (sc xp : ℤ),
    (bulletPass b es sc xp).score + deadScore es =
      sc + deadScore (bulletPass b es sc xp).enemies := by
  induction es with
  | nil => intro b sc xp; rfl
  | cons e rest ih =>
    intro b sc xp
    by_cases h1 : e.hp ≤ 0
    · simp only [bulletPass, if_pos h1, deadScore_cons]
      have h := ih b sc xp
      linarith
    · by_cases h2 : distLt b.pos e.pos (e.radius + 1 / 5) = true
      · by_cases h3 : e.hp - b.damage ≤ 0 <;> by_cases h4 : b.pierceLeft ≤ 0 <;>
          [simp only [bulletPass, if_neg h1, if_pos h2, if_pos h3, if_pos h4, deadScore_cons,
            scoreAward];
           simp only [bulletPass, if_neg h1, if_pos h2, if_pos h3, if_neg h4, deadScore_cons,
            scoreAward];
           simp only [bulletPass, if_neg h1, if_pos h2, if_neg h3, if_pos h4, deadScore_cons,
            scoreAward];
           simp only [bulletPass, if_neg h1, if_pos h2, if_neg h3, if_neg h4, deadScore_cons,
            scoreAward]] <;>
        first
        | (have h := ih { b with life := -1 }
              (sc + if e.isBoss = true then (200 : ℤ) else 15)
              (xp + if e.isBoss = true then (5 : ℤ) else 1)
           linarith)
        | (have h := ih { b with pierceLeft := b.pierceLeft - 1 }
              (sc + if e.isBoss = true then (200 : ℤ) else 15)
              (xp + if e.isBoss = true then (5 : ℤ) else 1)
           linarith)
        | (have h := ih { b with life := -1 } (sc + 0) (xp + 0)
           linarith)
        | (have h := ih { b with pierceLeft := b.pierceLeft - 1 } (sc + 0) (xp + 0)
           linarith)
      · simp only [bulletPass, if_neg h1, if_neg h2, deadScore_cons]
        have h := ih b sc xp
        linarith

theorem bulletPass_xp (es : List Enemy) : ∀ (b : Bullet) (sc xp : ℤ),
    (bulletPass b es sc xp).xp + deadXp es = xp + deadXp (bulletPass b es sc xp).enemies := by
  induction es with
  | nil => intro b sc xp; rfl
  | cons e rest ih =>
    intro b sc xp
    by_cases h1 : e.hp ≤ 0
    · simp only [bulletPass, if_pos h1, deadXp_cons]
      have h := ih b sc xp
      linarith
    · by_cases h2 : distLt b.pos e.pos (e.radius + 1 / 5) = true
      · by_cases h3 : e.hp - b.damage ≤ 0 <;> by_cases h4 : b.pierceLeft ≤ 0 <;>
          [simp only [bulletPass, if_neg h1, if_pos h2, if_pos h3, if_pos h4, deadXp_cons,
            xpAward];
           simp only [bulletPass, if_neg h1, if_pos h2, if_pos h3, if_neg h4, deadXp_cons,
            xpAward];
           simp only [bulletPass, if_neg h1, if_pos h2, if_neg h3, if_pos h4, deadXp_cons,
            xpAward];
           simp only [bulletPass, if_neg h1, if_pos h2, if_neg h3, if_neg h4, deadXp_cons,
            xpAward]] <;>
        first
        | (have h := ih { b with life := -1 }
              (sc + if e.isBoss = true then (200 : ℤ) else 15)
              (xp + if e.isBoss = true then (5 : ℤ) else 1)
           linarith)
        | (have h := ih { b with pierceLeft := b.pierceLeft - 1 }
              (sc + if e.isBoss = true then (200 : ℤ) else 15)
              (xp + if e.isBoss = true then (5 : ℤ) else 1)
           linarith)
        | (have h := ih { b with life := -1 } (sc + 0) (xp + 0)
           linarith)
        | (have h := ih { b with pierceLeft := b.pierceLeft - 1 } (sc + 0) (xp + 0)
           linarith)
      · simp only [bulletPass, if_neg h1, if_neg h2, deadXp_cons]
        have h := ih b sc xp
        linarith

theorem collide_score (bs : List Bullet) : ∀ (es : List Enemy) (sc xp : ℤ),
    (collide bs es sc xp).score + deadScore es = sc + deadScore (collide bs es sc xp).enemies := by
  induction bs with
  | nil => intro es sc xp; rfl
  | cons b rest ih =>
    intro es sc xp
    simp only [collide]
    have h1 := bulletPass_score es b sc xp
    have h2 :=
      ih (bulletPass b es sc xp).enemies (bulletPass b es sc xp).score (bulletPass b es sc xp).xp
    linarith

theorem collide_xp (bs : List Bullet) : ∀ (es : List Enemy) (sc xp : ℤ),
    (collide bs es sc xp).xp + deadXp es = xp + deadXp (collide bs es sc xp).enemies := by
  induction bs with
  | nil => intro es sc xp; rfl
  | cons b rest ih =>
    intro es sc xp
    simp only [collide]
    have h1 := bulletPass_xp es b sc xp
    have h2 :=
      ih (bulletPass b es sc xp).enemies (bulletPass b es sc xp).score (bulletPass b es sc xp).xp
    linarith

theorem map_isBoss_damageIf (bpos : Vec3) (bdmg : ℚ) (es : List Enemy) :
    (es.map (damageIf bpos bdmg)).map Enemy.isBoss = es.map Enemy.isBoss := by
  simp [List.map_map, Function.comp, damageIf_isBoss]

theorem collide_isBoss (bs : List Bullet) : ∀ (es : List Enemy) (sc xp : ℤ),
    ((collide bs es sc xp).enemies).map Enemy.isBoss = es.map Enemy.isBoss := by
  induction bs with
  | nil => intro es sc xp; rfl
  | cons b rest ih =>
    intro es sc xp
    simp only [collide]
    rw [ih, bulletPass_enemies, map_isBoss_damageIf]

theorem aiOne_hp (plPos : Vec3) (w d : ℕ) (dt : ℚ) (env : Env) (i : ℕ) (e : Enemy) (nid : ℕ) :
    (aiOne plPos w d dt env i e nid).enemy.hp = e.hp := by
  simp only [aiOne]
  split
  · split <;> rfl
  · rfl

theorem aiOne_isBoss (plPos : Vec3) (w d : ℕ) (dt : ℚ) (env : Env) (i : ℕ) (e : Enemy)
    (nid : ℕ) : (aiOne plPos w d dt env i e nid).enemy.isBoss = e.isBoss := by
  simp only [aiOne]
  split
  · split <;> rfl
  · rfl

theorem aiGo_hp (plPos : Vec3) (w d : ℕ) (dt : ℚ) (env : Env) (es : List Enemy) :
    ∀ (i : ℕ) (ebs : List EBullet) (nid : ℕ),
      ((aiGo plPos w d dt env i es ebs nid).enemies).map Enemy.hp = es.map Enemy.hp := by
  induction es with
  | nil => intro i ebs nid; rfl
  | cons e rest ih =>
    intro i ebs nid
    simp only [aiGo, List.map_cons, aiOne_hp, ih]

theorem aiGo_isBoss (plPos : Vec3) (w d : ℕ) (dt : ℚ) (env : Env) (es : List Enemy) :
    ∀ (i : ℕ) (ebs : List EBullet) (nid : ℕ),
      ((aiGo plPos w d dt env i es ebs nid).enemies).map Enemy.isBoss = es.map Enemy.isBoss := by
  induction es with
  | nil => intro i ebs nid; rfl
  | cons e rest ih =>
    intro i ebs nid
    simp only [aiGo, List.map_cons, aiOne_isBoss, ih]

theorem countBoss_eq_of_map_eq {es1 es2 : List Enemy}
    (h : es1.map Enemy.isBoss = es2.map Enemy.isBoss) : countBoss es1 = countBoss es2 := by
  unfold countBoss
  rw [h]

theorem countBoss_filter_le (p : Enemy → Bool) (es : List Enemy) :
    countBoss (es.filter p) ≤ countBoss es := by
  unfold countBoss
  exact ((es.filter_sublist (p := p)).map Enemy.isBoss).count_le true

theorem countBoss_append (l1 l2 : List Enemy) :
    countBoss (l1 ++ l2) = countBoss l1 + countBoss l2 := by
  simp [countBoss, List.count_append]

theorem spawnEnemy_isBoss (prev : State) (env : Env) (nid : ℕ) :
    (spawnEnemy prev env nid).isBoss = false := rfl

theorem bossOf_isBoss (prev : State) (env : Env) : (bossOf prev env).isBoss = true := rfl

theorem jsRound_pos (q : ℚ) (h : 1 ≤ q) : 0 < jsRound q := by
  unfold jsRound
  have : (1 : ℤ) ≤ ⌊q + 1 / 2⌋ := by
    rw [Int.le_floor]
    push_cast
    linarith
  omega

theorem levelStep_level_le (xp a : ℤ) (L : ℕ) : (levelStep xp a L).2 ≤ L + 1 := by
  simp only [levelStep]
  split <;> dsimp only <;> omega

theorem bulletPass_bullet (es : List Enemy) : ∀ (b : Bullet) (sc xp : ℤ),
    0 ≤ b.pierceLeft →
    (bulletPass b es sc xp).bullet =
      if (liveHits b.pos es : ℤ) ≤ b.pierceLeft then
        { b with pierceLeft := b.pierceLeft - (liveHits b.pos es : ℤ) }
      else { b with pierceLeft := 0, life := -1 } := by
  induction es with
  | nil =>
    intro b sc xp h
    simp only [bulletPass, liveHits, List.filter_nil, List.length_nil, Nat.cast_zero, sub_zero,
      if_pos h]
  | cons e rest ih =>
    intro b sc xp h
    by_cases h1 : e.hp ≤ 0
    · have hc : liveHits b.pos (e :: rest) = liveHits b.pos rest := by
        simp [liveHits, List.filter_cons, h1]
      rw [hc]
      simp only [bulletPass, if_pos h1]
      exact ih b sc xp h
    · by_cases h2 : distLt b.pos e.pos (e.radius + 1 / 5) = true
      · have hcond : (!decide (e.hp ≤ 0) && distLt b.pos e.pos (e.radius + 1 / 5)) = true := by
          rw [h2]
          simp [h1]
        have hc : liveHits b.pos (e :: rest) = liveHits b.pos rest + 1 := by
          unfold liveHits
          rw [List.filter_cons, hcond, if_pos rfl, List.length_cons]
        rw [hc]
        by_cases h4 : b.pierceLeft ≤ 0
        · have hp0 : b.pierceLeft = 0 := le_antisymm h4 h
          simp only [bulletPass, if_neg h1, if_pos h2, if_pos h4]
          have hr := ih { b with life := -1 }
            (sc + if e.hp - b.damage ≤ 0 then (if e.isBoss = true then 200 else 15) else 0)
            (xp + if e.hp - b.damage ≤ 0 then (if e.isBoss = true then 5 else 1) else 0) h
          rw [hr]
          have hL : (0 : ℤ) ≤ (liveHits b.pos rest : ℤ) := Int.natCast_nonneg _
          by_cases h5 : (liveHits b.pos rest : ℤ) ≤ b.pierceLeft
          · rw [if_pos h5, if_neg (by push_cast; omega)]
            have hz : (liveHits b.pos rest : ℤ) = 0 := by omega
            simp [Bullet.mk.injEq, hz, hp0]
          · rw [if_neg h5, if_neg (by push_cast; omega)]
        · simp only [bulletPass, if_neg h1, if_pos h2, if_neg h4]
          have hr := ih { b with pierceLeft := b.pierceLeft - 1 }
            (sc + if e.hp - b.damage ≤ 0 then (if e.isBoss = true then 200 else 15) else 0)
            (xp + if e.hp - b.damage ≤ 0 then (if e.isBoss = true then 5 else 1) else 0)
            (by simp; omega)
          rw [hr]
          by_cases h5 : (liveHits b.pos rest : ℤ) ≤ b.pierceLeft - 1
          · rw [if_pos h5, if_pos (by push_cast; omega)]
            simp [Bullet.mk.injEq]
            ring
          · rw [if_neg h5, if_neg (by omega)]
      · have hcond : (!decide (e.hp ≤ 0) && distLt b.pos e.pos (e.radius + 1 / 5)) = false := by
          rw [Bool.eq_false_iff.mpr h2]
          simp
        have hc : liveHits b.pos (e :: rest) = liveHits b.pos rest := by
          unfold liveHits
          rw [List.filter_cons, hcond, if_neg (by simp)]
        rw [hc]
        simp only [bulletPass, if_neg h1, if_neg h2]
        exact ih b sc xp h

theorem deadScore_eq_zero (es : List Enemy) (h : ∀ e ∈ es, 0 < e.hp) : deadScore es = 0 := by
  induction es with
  | nil => rfl
  | cons e rest ih =>
    rw [deadScore_cons, if_neg (by have := h e (by simp); linarith),
      ih fun e2 he2 => h e2 (by simp [he2])]
    ring

theorem deadXp_eq_zero (es : List Enemy) (h : ∀ e ∈ es, 0 < e.hp) : deadXp es = 0 := by
  induction es with
  | nil => rfl
  | cons e rest ih =>
    rw [deadXp_cons, if_neg (by have := h e (by simp); linarith),
      ih fun e2 he2 => h e2 (by simp [he2])]
    ring

theorem hp_pos_of_map_eq {es1 es2 : List Enemy}
    (h : es1.map Enemy.hp = es2.map Enemy.hp) (hall : ∀ e ∈ es2, 0 < e.hp) :
    ∀ e ∈ es1, 0 < e.hp := by
  intro e he
  have hm : e.hp ∈ es1.map Enemy.hp := List.mem_map_of_mem Enemy.hp he
  rw [h] at hm
  obtain ⟨e2, he2, heq⟩ := List.mem_map.mp hm
  rw [← heq]
  exact hall e2 he2

theorem spawnEnemy_hp_pos (prev : State) (env : Env) (nid : ℕ) (hw : 1 ≤ prev.wave) :
    0 < (spawnEnemy prev env nid).hp := by
  simp only [spawnEnemy]
  have hq : (1 : ℚ) ≤
      18 + ((prev.wave : ℚ) - 1) * 6 * (7 / 10 + 3 / 10 * (prev.difficulty : ℚ)) := by
    have hw2 : (1 : ℚ) ≤ (prev.wave : ℚ) := by exact_mod_cast hw
    have hd : (0 : ℚ) ≤ (prev.difficulty : ℚ) := Nat.cast_nonneg _
    nlinarith
  exact_mod_cast jsRound_pos _ hq

theorem bossOf_hp_pos (prev : State) (env : Env) : 0 < (bossOf prev env).hp := by
  simp only [bossOf]
  have ht : (0 : ℚ) ≤ ((max 1 (prev.wave / 5) : ℕ) : ℚ) := Nat.cast_nonneg _
  have hd : (0 : ℚ) ≤ (prev.difficulty : ℚ) := Nat.cast_nonneg _
  have hq : (1 : ℚ) ≤
      (260 + 150 * ((max 1 (prev.wave / 5) : ℕ) : ℚ)) * (1 + 1 / 4 * (prev.difficulty : ℚ)) := by
    nlinarith
  exact_mod_cast jsRound_pos _ hq

theorem bossPhaseEnemies_hp_pos (prev : State) (env : Env)
    (hl : ∀ e ∈ prev.enemies, 0 < e.hp) : ∀ e ∈ bossPhaseEnemies prev env, 0 < e.hp := by
  intro e he
  unfold bossPhaseEnemies at he
  split at he
  · rw [List.mem_singleton] at he
    rw [he]
    exact bossOf_hp_pos prev env
  · exact hl e he

theorem phSpawn_hp_pos (prev : State) (env : Env) (dt : ℚ) (enemies1 : List Enemy)
    (bossActive1 : Bool) (nid2 : ℕ) (hw : 1 ≤ prev.wave)
    (hl : ∀ e ∈ enemies1, 0 < e.hp) :
    ∀ e ∈ (phSpawn prev env dt enemies1 bossActive1 nid2).enemies, 0 < e.hp := by
  intro e he
  simp only [phSpawn] at he
  split at he
  · rw [List.mem_append, List.mem_singleton] at he
    rcases he with he | he
    · exact hl e he
    · rw [he]
      exact spawnEnemy_hp_pos prev env nid2 hw
  · exact hl e he

theorem midOf_enemies (prev : State) (dt : ℚ) (env : Env) :
    (midOf prev dt env).enemies =
      (aiPhase (movedPlayer prev dt env).pos prev.wave prev.difficulty dt env
        (phSpawn prev env dt (bossPhaseEnemies prev env) (bossPhaseActive prev)
          (phShoot prev (movedPlayer prev dt env) (bossPhaseNid prev) env).nid).enemies
        prev.eBullets
        (phSpawn prev env dt (bossPhaseEnemies prev env) (bossPhaseActive prev)
          (phShoot prev (movedPlayer prev dt env) (bossPhaseNid prev) env).nid).nid).enemies :=
  rfl

theorem midOf_hp_pos (prev : State) (dt : ℚ) (env : Env) (hw : 1 ≤ prev.wave)
    (hl : ∀ e ∈ prev.enemies, 0 < e.hp) : ∀ e ∈ (midOf prev dt env).enemies, 0 < e.hp := by
  rw [midOf_enemies]
  exact hp_pos_of_map_eq (aiGo_hp _ _ _ _ _ _ _ _ _)
    (phSpawn_hp_pos _ _ _ _ _ _ hw (bossPhaseEnemies_hp_pos _ _ hl))

theorem countBoss_singleton (e : Enemy) : countBoss [e] = if e.isBoss then 1 else 0 := by
  cases h : e.isBoss <;> simp [countBoss, h]

theorem countBoss_midOf (prev : State) (dt : ℚ) (env : Env) :
    countBoss (midOf prev dt env).enemies =
      if bossSpawnGuard prev then 1 else countBoss prev.enemies := by
  rw [midOf_enemies]
  unfold aiPhase
  rw [countBoss_eq_of_map_eq (aiGo_isBoss _ _ _ _ _ _ _ _ _)]
  have hsp : ∀ (ba : Bool) (nid : ℕ),
      countBoss (phSpawn prev env dt (bossPhaseEnemies prev env) ba nid).enemies =
        countBoss (bossPhaseEnemies prev env) := by
    intro ba nid
    simp only [phSpawn]
    split
    · rw [countBoss_append, countBoss_singleton]
      simp [spawnEnemy_isBoss]
    · rfl
  rw [hsp]
  by_cases hg : bossSpawnGuard prev = true
  · simp [bossPhaseEnemies, hg, countBoss_singleton, bossOf_isBoss]
  · simp [bossPhaseEnemies, hg]

theorem tick_eq_active (prev : State) (dtx : ℚ) (env : Env) (h1 : prev.playing = true)
    (h2 : prev.paused = false) (h3 : prev.gameOver = false) :
    tick prev dtx env = tickActive prev (min (1 / 20) dtx) env := by
  simp [tick, h1, h2, h3]

theorem tick_frozen (prev : State) (dtx : ℚ) (env : Env)
    (h : prev.playing = false ∨ prev.paused = true ∨ prev.gameOver = true) :
    tick prev dtx env = prev := by
  rcases h with h | h | h <;> simp [tick, h]

theorem tickActive_wave (prev : State) (dt : ℚ) (env : Env) :
    (tickActive prev dt env).wave =
      if 25 + (prev.wave : ℚ) * 18 < prev.time + dt then prev.wave + 1 else prev.wave := rfl

theorem tickActive_maxHp (prev : State) (dt : ℚ) (env : Env) :
    (tickActive prev dt env).player.maxHp = prev.player.maxHp := rfl

theorem tickActive_hp_clamp (prev : State) (dt : ℚ) (env : Env) :
    ∃ x, (tickActive prev dt env).player.hp = clamp (prev.player.hp - x) 0 prev.player.maxHp :=
  ⟨_, rfl⟩

theorem tickActive_level (prev : State) (dt : ℚ) (env : Env) :
    ∃ a, (tickActive prev dt env).level = (levelStep prev.xp a prev.level).2 :=
  ⟨_, rfl⟩

theorem tickActive_score (prev : State) (dt : ℚ) (env : Env) :
    (tickActive prev dt env).score =
      prev.score +
        (collide (midOf prev dt env).bullets (midOf prev dt env).enemies 0 0).score := rfl

theorem tickActive_enemies (prev : State) (dt : ℚ) (env : Env) :
    (tickActive prev dt env).enemies =
      ((collide (midOf prev dt env).bullets (midOf prev dt env).enemies 0 0).enemies).filter
        (fun e => decide (0 < e.hp)) := rfl

/-- C1 counterexample: the claim "a bullet with pierce = 0 damages at most
one enemy" is false on the code.  In `c1State` a single pierce-0 bullet
overlaps two living enemies; after one tick both enemies have lost the
bullet's 10 damage (100 to 90 each), because the collision loop keeps
iterating over the remaining enemies after the bullet's life is set to -1,
and the bullet is only removed after the loop. -/
theorem c1_counterexample :
    c1State.bullets.map Bullet.pierceLeft = [0] ∧
    c1State.enemies.map Enemy.hp = [100, 100] ∧
    (tick c1State (1 / 20) env0).enemies.map Enemy.hp = [90, 90] ∧
    (tick c1State (1 / 20) env0).bullets = [] := by
  refine ⟨rfl, rfl, ?_, ?_⟩ <;>
    norm_num [tick, tickActive, midOf, movedPlayer, bossPhaseEnemies, bossPhaseNid,
      bossPhaseActive, phShoot, phSpawn, bossOf, spawnEnemy, aiPhase, aiGo, aiOne,
      stepBullets, stepEBullets, eBulletHits, enemyDeaths, dropsRev, lootType,
      contactDamage, pickupPhase, pickupOne, levelStep, collide, bulletPass,
      bossSpawnGuard, startState, env0, c1State, c1Enemy, c1Bullet, clamp, jsRound,
      distLt, dist2, Vec3.norm2, Vec3.add, Vec3.sub, Vec3.smul, List.enum, List.enumFrom]

/-- C1 (amended): in one collision pass a bullet damages every living
enemy within contact range (`radius + 0.2`), regardless of its remaining
pierce; writing `m` for that number of hits, the bullet leaves the pass
unchanged (up to `pierce := pierce - m`) when `m ≤ pierce`, and otherwise
its pierce is exhausted and its life is set to -1, so it is removed when
the tick filters bullets after the collision loop.  Hence a bullet with
pierce = k is deactivated on the tick in which its cumulative hits exceed
k, but within that tick it can damage more than k + 1 enemies; "pierce = 0
damages at most one enemy" holds only when at most one enemy is in contact
range at a time. -/
theorem c1_pierce_amended (b : Bullet) (es : List Enemy) (sc xp : ℤ)
    (h : 0 ≤ b.pierceLeft) :
    (bulletPass b es sc xp).enemies = es.map (damageIf b.pos b.damage) ∧
    (bulletPass b es sc xp).bullet =
      (if (liveHits b.pos es : ℤ) ≤ b.pierceLeft then
        { b with pierceLeft := b.pierceLeft - (liveHits b.pos es : ℤ) }
      else { b with pierceLeft := 0, life := -1 }) :=
  ⟨bulletPass_enemies es b sc xp, bulletPass_bullet es b sc xp h⟩

/-- Witness for C1 (amended) at the concrete counterexample input. -/
theorem c1_pierce_amended_witness :
    0 ≤ c1Bullet.pierceLeft ∧
      ((bulletPass c1Bullet [c1Enemy 1, c1Enemy 2] 0 0).enemies =
          [c1Enemy 1, c1Enemy 2].map (damageIf c1Bullet.pos c1Bullet.damage) ∧
        (bulletPass c1Bullet [c1Enemy 1, c1Enemy 2] 0 0).bullet =
          (if (liveHits c1Bullet.pos [c1Enemy 1, c1Enemy 2] : ℤ) ≤ c1Bullet.pierceLeft then
            { c1Bullet with
              pierceLeft :=
                c1Bullet.pierceLeft - (liveHits c1Bullet.pos [c1Enemy 1, c1Enemy 2] : ℤ) }
          else { c1Bullet with pierceLeft := 0, life := -1 })) :=
  ⟨by decide, c1_pierce_amended c1Bullet [c1Enemy 1, c1Enemy 2] 0 0 (by decide)⟩

/-- C2: in the STABLE build's death sweep (App.jsx lines 1095-1101) a
dropped pickup receives id `nextId + i` while `nextId` is never advanced,
so the session counter is not consumed: two ticks that each kill one
enemy at index 0 produce two coexisting pickups with the same id 5, and
the counter still reads 5 afterwards.  This breaks "ids are strictly
increasing and never reused within a session". -/
theorem c2_stable_id_reuse :
    ((enemyDeathsStable c2Roll [c2DeadEnemy 7]
          (enemyDeathsStable c2Roll [c2DeadEnemy 6] [] 5).pickups
          (enemyDeathsStable c2Roll [c2DeadEnemy 6] [] 5).nid).pickups.map Pickup.id =
        [5, 5]) ∧
      (enemyDeathsStable c2Roll [c2DeadEnemy 7]
          (enemyDeathsStable c2Roll [c2DeadEnemy 6] [] 5).pickups
          (enemyDeathsStable c2Roll [c2DeadEnemy 6] [] 5).nid).nid = 5 := by
  norm_num [enemyDeathsStable, dropsRevStable, c2Roll, c2DeadEnemy, List.enum, List.enumFrom]

/-- C3: at most one boss can be alive.  First conjunct: one tick never
raises the boss count above `max 1 (previous boss count)`, so from the
boss-free start state the count stays at most 1 in every reachable state.
Second conjunct: the phase preceding the collision step holds exactly one
boss when the spawn guard (boss wave, boss not active, this wave's boss
not yet defeated, no boss alive) fires — the spawn clears all other
enemies — and otherwise leaves the boss count unchanged.  Third conjunct:
a fresh session starts with no boss. -/
theorem c3_boss_unique :
    ∀ (prev : State) (dtx dt : ℚ) (env : Env) (d : ℕ),
      countBoss (tick prev dtx env).enemies ≤ max 1 (countBoss prev.enemies) ∧
      countBoss (midOf prev dt env).enemies =
        (if bossSpawnGuard prev then 1 else countBoss prev.enemies) ∧
      countBoss (startState d).enemies = 0 := by
  intro prev dtx dt env d
  refine ⟨?_, countBoss_midOf prev dt env, rfl⟩
  cases hg : (prev.playing && !prev.paused && !prev.gameOver) with
  | false =>
    simp only [tick, hg, Bool.false_eq_true, if_false]
    exact le_max_right 1 _
  | true =>
    simp only [tick, hg, if_true]
    rw [tickActive_enemies]
    have h1 := countBoss_filter_le (fun e => decide (0 < e.hp))
      ((collide (midOf prev (min (1 / 20) dtx) env).bullets
        (midOf prev (min (1 / 20) dtx) env).enemies 0 0).enemies)
    have h2 : countBoss ((collide (midOf prev (min (1 / 20) dtx) env).bullets
          (midOf prev (min (1 / 20) dtx) env).enemies 0 0).enemies) =
        countBoss (midOf prev (min (1 / 20) dtx) env).enemies :=
      countBoss_eq_of_map_eq (collide_isBoss _ _ _ _)
    have h3 := countBoss_midOf prev (min (1 / 20) dtx) env
    rw [h2, h3] at h1
    refine le_trans h1 ?_
    split
    · exact le_max_left 1 _
    · exact le_max_right 1 _

/-- C4: on an active tick the wave counter increments by exactly one when
the updated session time exceeds `25 + 18 * wave` seconds and is unchanged
otherwise; at wave 1 the threshold is 43 s, not 25 s. -/
theorem c4_wave_threshold (prev : State) (dtx : ℚ) (env : Env) (h1 : prev.playing = true)
    (h2 : prev.paused = false) (h3 : prev.gameOver = false) :
    (tick prev dtx env).wave =
      if 25 + (prev.wave : ℚ) * 18 < prev.time + min (1 / 20) dtx then prev.wave + 1
      else prev.wave := by
  rw [tick_eq_active prev dtx env h1 h2 h3, tickActive_wave]

/-- Witness for C4 at two concrete active states: `c4A` sits at 43 s of a
wave-1 session (the tick pushes it past the threshold, wave becomes 2),
`c4B` sits at 30 s (past 25 s but short of 43 s, wave stays 1). -/
theorem c4_wave_threshold_witness :
    (c4A.playing = true ∧ c4A.paused = false ∧ c4A.gameOver = false ∧
      c4B.playing = true ∧ c4B.paused = false ∧ c4B.gameOver = false) ∧
    ((tick c4A (1 / 20) env0).wave =
        if 25 + (c4A.wave : ℚ) * 18 < c4A.time + min (1 / 20) (1 / 20) then c4A.wave + 1
        else c4A.wave) ∧
    ((tick c4B (1 / 20) env0).wave =
        if 25 + (c4B.wave : ℚ) * 18 < c4B.time + min (1 / 20) (1 / 20) then c4B.wave + 1
        else c4B.wave) :=
  ⟨⟨rfl, rfl, rfl, rfl, rfl, rfl⟩,
    c4_wave_threshold c4A (1 / 20) env0 rfl rfl rfl,
    c4_wave_threshold c4B (1 / 20) env0 rfl rfl rfl⟩

/-- C5: a tick keeps the player's published hit points inside
`[0, maxHp]`: the active path publishes `clamp (hp - loss) 0 maxHp` and
leaves `maxHp` unchanged, and a frozen tick republishes the previous
value. -/
theorem c5_hp_bounds (prev : State) (dtx : ℚ) (env : Env) (h0 : 0 ≤ prev.player.hp)
    (h1 : prev.player.hp ≤ prev.player.maxHp) :
    0 ≤ (tick prev dtx env).player.hp ∧
      (tick prev dtx env).player.hp ≤ (tick prev dtx env).player.maxHp := by
  cases hg : (prev.playing && !prev.paused && !prev.gameOver) with
  | false =>
    simp only [tick, hg, Bool.false_eq_true, if_false]
    exact ⟨h0, h1⟩
  | true =>
    simp only [tick, hg, if_true]
    obtain ⟨x, hx⟩ := tickActive_hp_clamp prev (min (1 / 20) dtx) env
    rw [hx, tickActive_maxHp]
    exact ⟨clamp_nonneg _ _, clamp_le _ _ (le_trans h0 h1)⟩

/-- Witness for C5 at a running half-health state. -/
theorem c5_hp_bounds_witness :
    (0 ≤ c5State.player.hp ∧ c5State.player.hp ≤ c5State.player.maxHp) ∧
      0 ≤ (tick c5State (1 / 20) env0).player.hp ∧
      (tick c5State (1 / 20) env0).player.hp ≤ (tick c5State (1 / 20) env0).player.maxHp :=
  ⟨⟨by norm_num [c5State, startState], by norm_num [c5State, startState]⟩,
    c5_hp_bounds c5State (1 / 20) env0 (by norm_num [c5State, startState])
      (by norm_num [c5State, startState])⟩

/-- C6: on an active tick whose enemies all start alive (and wave ≥ 1, as
in every session), every enemy left in the published state is alive — an
enemy whose hp reached 0 or below is removed in that same tick — the
published enemy list is exactly the post-collision list with the dead
filtered out, and the score and experience awards of the tick are exactly
the summed awards (15/1 normal, 200/5 boss) of the enemies that died in
the collision phase, counted once each. -/
theorem c6_death_awards (prev : State) (dtx : ℚ) (env : Env) (h1 : prev.playing = true)
    (h2 : prev.paused = false) (h3 : prev.gameOver = false) (hw : 1 ≤ prev.wave)
    (hl : ∀ e ∈ prev.enemies, 0 < e.hp) :
    (∀ e ∈ (tick prev dtx env).enemies, 0 < e.hp) ∧
    (tick prev dtx env).enemies =
      ((collide (midOf prev (min (1 / 20) dtx) env).bullets
          (midOf prev (min (1 / 20) dtx) env).enemies 0 0).enemies).filter
        (fun e => decide (0 < e.hp)) ∧
    (tick prev dtx env).score =
      prev.score +
        deadScore ((collide (midOf prev (min (1 / 20) dtx) env).bullets
            (midOf prev (min (1 / 20) dtx) env).enemies 0 0).enemies) ∧
    (collide (midOf prev (min (1 / 20) dtx) env).bullets
        (midOf prev (min (1 / 20) dtx) env).enemies 0 0).xp =
      deadXp ((collide (midOf prev (min (1 / 20) dtx) env).bullets
          (midOf prev (min (1 / 20) dtx) env).enemies 0 0).enemies) := by
  have hdt : tick prev dtx env = tickActive prev (min (1 / 20) dtx) env :=
    tick_eq_active prev dtx env h1 h2 h3
  have hmid := midOf_hp_pos prev (min (1 / 20) dtx) env hw hl
  have hsc0 : deadScore (midOf prev (min (1 / 20) dtx) env).enemies = 0 :=
    deadScore_eq_zero _ hmid
  have hxp0 : deadXp (midOf prev (min (1 / 20) dtx) env).enemies = 0 :=
    deadXp_eq_zero _ hmid
  have henim : (tick prev dtx env).enemies =
      ((collide (midOf prev (min (1 / 20) dtx) env).bullets
          (midOf prev (min (1 / 20) dtx) env).enemies 0 0).enemies).filter
        (fun e => decide (0 < e.hp)) := by
    rw [hdt, tickActive_enemies]
  refine ⟨?_, henim, ?_, ?_⟩
  · intro e he
    rw [henim] at he
    exact of_decide_eq_true (List.mem_filter.mp he).2
  · rw [hdt, tickActive_score]
    have h := collide_score (midOf prev (min (1 / 20) dtx) env).bullets
      (midOf prev (min (1 / 20) dtx) env).enemies 0 0
    rw [hsc0] at h
    linarith
  · have h := collide_xp (midOf prev (min (1 / 20) dtx) env).bullets
      (midOf prev (min (1 / 20) dtx) env).enemies 0 0
    rw [hxp0] at h
    linarith

/-- Witness for C6: a running session in which a pierce-0 bullet kills the
single 10-hp enemy in one tick. -/
theorem c6_death_awards_witness :
    (c6State.playing = true ∧ c6State.paused = false ∧ c6State.gameOver = false ∧
      1 ≤ c6State.wave ∧ ∀ e ∈ c6State.enemies, 0 < e.hp) ∧
    (∀ e ∈ (tick c6State (1 / 20) env0).enemies, 0 < e.hp) ∧
    (tick c6State (1 / 20) env0).enemies =
      ((collide (midOf c6State (min (1 / 20) (1 / 20)) env0).bullets
          (midOf c6State (min (1 / 20) (1 / 20)) env0).enemies 0 0).enemies).filter
        (fun e => decide (0 < e.hp)) ∧
    (tick c6State (1 / 20) env0).score =
      c6State.score +
        deadScore ((collide (midOf c6State (min (1 / 20) (1 / 20)) env0).bullets
            (midOf c6State (min (1 / 20) (1 / 20)) env0).enemies 0 0).enemies) ∧
    (collide (midOf c6State (min (1 / 20) (1 / 20)) env0).bullets
        (midOf c6State (min (1 / 20) (1 / 20)) env0).enemies 0 0).xp =
      deadXp ((collide (midOf c6State (min (1 / 20) (1 / 20)) env0).bullets
          (midOf c6State (min (1 / 20) (1 / 20)) env0).enemies 0 0).enemies) :=
  ⟨⟨rfl, rfl, rfl, by decide, by decide⟩,
    c6_death_awards c6State (1 / 20) env0 rfl rfl rfl (by decide) (by decide)⟩

/-- C7: leveling arithmetic.  First conjunct: adding gained experience `x`
to `e` at level `L` consumes the threshold `10 + 6 * (L - 1)` and
increments the level exactly when `e + x` reaches it, keeping the excess;
otherwise experience becomes `e + x` with the level unchanged.  Second and
third conjuncts: the concrete scenario — a player with xp 9 at level 1
collecting one xp pickup ends the tick with xp 0 and level 2. -/
theorem c7_level_threshold :
    (∀ (e x : ℤ) (L : ℕ),
        levelStep e x L =
          if 10 + ((L : ℤ) - 1) * 6 ≤ e + x then (e + x - (10 + ((L : ℤ) - 1) * 6), L + 1)
          else (e + x, L)) ∧
    (tick c7State (1 / 20) cAttractEnv).xp = 0 ∧
    (tick c7State (1 / 20) cAttractEnv).level = 2 := by
  refine ⟨fun e x L => rfl, ?_, ?_⟩ <;>
    norm_num [tick, tickActive, midOf, movedPlayer, bossPhaseEnemies, bossPhaseNid,
      bossPhaseActive, phShoot, phSpawn, bossOf, spawnEnemy, aiPhase, aiGo, aiOne,
      stepBullets, stepEBullets, eBulletHits, enemyDeaths, dropsRev, lootType,
      contactDamage, pickupPhase, pickupOne, levelStep, collide, bulletPass,
      bossSpawnGuard, startState, env0, cAttractEnv, c7State, c7Pickup, clamp, jsRound,
      distLt, dist2, Vec3.norm2, Vec3.add, Vec3.sub, Vec3.smul, List.enum, List.enumFrom]

/-- C8: a tick invoked on a session that is not playing, is paused, or is
in game over returns the previous state unchanged, every field included. -/
theorem c8_frozen_tick (prev : State) (dtx : ℚ) (env : Env)
    (h : prev.playing = false ∨ prev.paused = true ∨ prev.gameOver = true) :
    tick prev dtx env = prev :=
  tick_frozen prev dtx env h

/-- Witness for C8 at a concrete paused session. -/
theorem c8_frozen_tick_witness :
    (c8State.playing = false ∨ c8State.paused = true ∨ c8State.gameOver = true) ∧
      tick c8State 1 env0 = c8State :=
  ⟨Or.inr (Or.inl rfl), c8_frozen_tick c8State 1 env0 (Or.inr (Or.inl rfl))⟩

/-- C9: the heart-pickup heal is lost in the main build.  With the player
at 50/100 hp and a heart 0.5 units away, the tick removes the pickup and
the pickup sweep itself computes the healed value 65, but the published
hp is still 50: the tick computed `newHp` from the pre-pickup hp before
the sweep ran (App.jsx line 473) and overwrites the player's hp with it in
the returned state (line 513), discarding the heal.  The claim's expected
"+15 clamped" behavior does not hold on this code. -/
theorem c9_heart_heal_lost :
    c9State.player.hp = 50 ∧ c9State.player.maxHp = 100 ∧
    c9State.pickups.map Pickup.type = [PType.heart] ∧
    (pickupPhase cAttractEnv ⟨0, 1, 0⟩ 1 100 (1 / 20) c9State.pickups 50).hp = 65 ∧
    (tick c9State (1 / 20) cAttractEnv).player.hp = 50 ∧
    (tick c9State (1 / 20) cAttractEnv).pickups = [] := by
  refine ⟨rfl, rfl, rfl, ?_, ?_, ?_⟩ <;>
    norm_num [tick, tickActive, midOf, movedPlayer, bossPhaseEnemies, bossPhaseNid,
      bossPhaseActive, phShoot, phSpawn, bossOf, spawnEnemy, aiPhase, aiGo, aiOne,
      stepBullets, stepEBullets, eBulletHits, enemyDeaths, dropsRev, lootType,
      contactDamage, pickupPhase, pickupOne, levelStep, collide, bulletPass,
      bossSpawnGuard, startState, env0, cAttractEnv, c9State, c9Pickup, clamp, jsRound,
      distLt, dist2, Vec3.norm2, Vec3.add, Vec3.sub, Vec3.smul, List.enum, List.enumFrom]

/-- C10: the level rises by at most one per tick, whatever experience the
tick gains, because the tick checks the threshold once; the excess beyond
the single consumed threshold stays in the experience counter.  The
concrete scenario gains 20 xp at xp 9, level 1: the tick ends at level 2
with xp 19, even though 19 already meets the level-2 threshold of 16. -/
theorem c10_single_level_up :
    (∀ (prev : State) (dtx : ℚ) (env : Env), (tick prev dtx env).level ≤ prev.level + 1) ∧
    (tick c10State (1 / 20) env0).level = 2 ∧
    (tick c10State (1 / 20) env0).xp = 19 ∧
    10 + (((tick c10State (1 / 20) env0).level : ℤ) - 1) * 6 ≤
      (tick c10State (1 / 20) env0).xp := by
  refine ⟨?_, ?_, ?_, ?_⟩
  · intro prev dtx env
    cases hg : (prev.playing && !prev.paused && !prev.gameOver) with
    | false =>
      simp only [tick, hg, Bool.false_eq_true, if_false]
      exact Nat.le_succ _
    | true =>
      simp only [tick, hg, if_true]
      obtain ⟨a, ha⟩ := tickActive_level prev (min (1 / 20) dtx) env
      rw [ha]
      exact levelStep_level_le _ _ _
  all_goals
    norm_num [tick, tickActive, midOf, movedPlayer, bossPhaseEnemies, bossPhaseNid,
      bossPhaseActive, phShoot, phSpawn, bossOf, spawnEnemy, aiPhase, aiGo, aiOne,
      stepBullets, stepEBullets, eBulletHits, enemyDeaths, dropsRev, lootType,
      contactDamage, pickupPhase, pickupOne, levelStep, collide, bulletPass,
      bossSpawnGuard, startState, env0, c10State, c10Pickup, List.replicate, clamp,
      jsRound, distLt, dist2, Vec3.norm2, Vec3.add, Vec3.sub, Vec3.smul, List.enum,
      List.enumFrom]

end NeonRunner
